import Mathlib

/-!
Shallow embedding of the quick-trace node aggregation logic from
`src/sentry/static/sentry/app/components/quickTrace/index.tsx`.

The component renders a trace as an ordered list of nodes.  `EventNodeSelector`
(the bucket-to-node reducer) hoists errors out of a bucket's events, removes the
current event, and renders a label-only node, a single link, or a dropdown
depending on the combined error+event count.  `QuickTrace` (the trace
assembler) lays the buckets out in a fixed order with connectors, and
`MissingServiceNode` is a small dismissible placeholder whose dismissal is
persisted in local storage under a single key.

External collaborators (target resolvers, the duration formatter, React
presentation wrappers) are modelled as constructors that record the inputs the
source passes to them; the control flow and data flow of the component itself
is translated directly from the source.
-/

/-- A trace error record (`TraceError`).  During hoisting the source copies the
error and overwrites its `transaction` field with the owning event's
transaction name (`{...error, transaction: e.transaction}`). -/
structure TraceError where
  event_id : String
  transaction : Option String
  deriving DecidableEq, Repr

/-- A quick-trace event (`QuickTraceEvent`): identifier, transaction name,
duration in milliseconds (`transaction.duration`), attached error records, and
the `missing_service?.child` flag read by the assembler. -/
structure QuickTraceEvent where
  event_id : String
  transaction : String
  duration : Nat
  errors : List TraceError
  missing_service_child : Bool
  deriving DecidableEq, Repr

/-- The current `Event` prop: its `id` and `type` fields are the only ones the
reducer reads. -/
structure CurrentEvent where
  id : String
  type : String
  deriving DecidableEq, Repr

/-- Link targets.  The target resolvers
(`generateSingleErrorTarget`, `generateSingleTransactionTarget`,
`generateMultiTransactionsTarget`) are external collaborators; each constructor
records the argument the source passes to the resolver. -/
inductive Target where
  | singleError (err : TraceError)
  | singleTransaction (ev : QuickTraceEvent)
  | multiTransactions (label : String)
  deriving DecidableEq, Repr

/-- Hover text of a node: the fixed error string, the single-event summary
(`SingleEventHoverText`), or the dropdown hover built by `tct` from a tooltip
word and an event-type word. -/
inductive HoverText where
  | fixedErrorText
  | singleEventSummary (ev : QuickTraceEvent)
  | viewPrefixType (word : String) (eventType : String)
  deriving DecidableEq, Repr

/-- The visual tag style of a node (`keyof Theme.tag` as used here). -/
inductive TagType where
  | black
  | white
  | error
  | warning
  deriving DecidableEq, Repr

/-- The bucket key (`nodeKey`). -/
inductive NodeKey where
  | root
  | ancestors
  | parent
  | current
  | children
  | descendants
  deriving DecidableEq, Repr

/-- Subtext of a dropdown item: the literal `"error"` for error items, or the
duration formatter applied to the event's duration with the precision the
source chooses (`event['transaction.duration'] < 1000 ? 0 : 2`). -/
inductive Subtext where
  | errorLiteral
  | duration (ms : Nat) (precision : Nat)
  deriving DecidableEq, Repr

/-- One rendered dropdown entry: an error item, a plain event item, or the
aggregate overflow item (`DropdownItem` holding the extras target). -/
inductive DropItem where
  | errorItem (err : TraceError) (target : Target) (sub : Subtext)
  | eventItem (ev : QuickTraceEvent) (target : Target) (sub : Subtext)
  | extraItem (target : Target) (hover : HoverText)
  deriving DecidableEq, Repr

/-- The node descriptor produced for one bucket: a label-only `EventNode`, a
`StyledEventNode` single link, or a `DropdownLink` with its items. -/
inductive Node where
  | labelOnly (style : TagType)
  | singleLink (style : TagType) (target : Target) (hover : HoverText)
  | dropdown (style : TagType) (hover : HoverText) (items : List DropItem)
  deriving DecidableEq, Repr

/-- Error hoisting (source lines 260-270): for each event, each of its errors
whose `event_id` differs from the current event's `id` (when a current event is
given) is appended, with its `transaction` overwritten by the owning event's
transaction, preserving input order. -/
def hoistErrors (events : List QuickTraceEvent) (currentEvent : Option CurrentEvent) :
    List TraceError :=
  events.flatMap fun e =>
    (e.errors.filter fun err =>
        match currentEvent with
        | none => true
        | some c => c.id != err.event_id).map
      fun err => { err with transaction := some e.transaction }

/-- Self-exclusion (source line 272): when a current event is given, events
whose `event_id` equals the current event's `id` are filtered out. -/
def excludeCurrent (events : List QuickTraceEvent) (currentEvent : Option CurrentEvent) :
    List QuickTraceEvent :=
  match currentEvent with
  | none => events
  | some c => events.filter fun e => e.event_id != c.id

/-- The escalation condition (source line 275): errors are present, or a
current event is given whose type is not `"transaction"`. -/
def escalated (errors : List TraceError) (currentEvent : Option CurrentEvent) : Bool :=
  0 < errors.length ||
    (match currentEvent with
     | some c => c.type != "transaction"
     | none => false)

/-- The node style (source lines 274-283): `black`/`white` by bucket, escalated
to `error`/`warning` under the escalation condition. -/
def nodeStyle (key : NodeKey) (errors : List TraceError)
    (currentEvent : Option CurrentEvent) : TagType :=
  if escalated errors currentEvent then
    if key = NodeKey.current then TagType.error else TagType.warning
  else
    if key = NodeKey.current then TagType.black else TagType.white

/-- The `TOOLTIP_PREFIX` table. -/
def tooltipWordFor : NodeKey → String
  | NodeKey.root => "root"
  | NodeKey.ancestors => "ancestor"
  | NodeKey.parent => "parent"
  | NodeKey.current => ""
  | NodeKey.children => "child"
  | NodeKey.descendants => "descendant"

/-- The dropdown hover's event-type word (source lines 321-326): `"events"`
when both categories are present, `"transactions"` when only events are,
`"errors"` otherwise. -/
def dropdownEventType (errors : List TraceError) (events : List QuickTraceEvent) : String :=
  if 0 < errors.length && 0 < events.length then "events"
  else if 0 < events.length then "transactions"
  else "errors"

/-- The dropdown hover text (source lines 319-327). -/
def dropdownHover (key : NodeKey) (errors : List TraceError)
    (events : List QuickTraceEvent) : HoverText :=
  HoverText.viewPrefixType (tooltipWordFor key) (dropdownEventType errors events)

/-- One dropdown error item (source lines 334-353). -/
def mkErrorItem (err : TraceError) : DropItem :=
  DropItem.errorItem err (Target.singleError err) Subtext.errorLiteral

/-- One dropdown event item (source lines 354-377), with the duration subtext
precision chosen as in the source. -/
def mkEventItem (ev : QuickTraceEvent) : DropItem :=
  DropItem.eventItem ev (Target.singleTransaction ev)
    (Subtext.duration ev.duration (if ev.duration < 1000 then 0 else 2))

/-- The aggregate overflow item (source lines 378-384): appended only when the
post-exclusion event count exceeds the cap and an extras target was supplied
(the hover text, a `tct` element, is always truthy in the source). -/
def extraPart (extrasTarget : Option Target) (hover : HoverText)
    (eventsLen cap : Nat) : List DropItem :=
  if cap < eventsLen then
    match extrasTarget with
    | some tgt => [DropItem.extraItem tgt hover]
    | none => []
  else []

/-- The bucket-to-node reducer `EventNodeSelector` (source lines 247-388):
hoists errors, removes the current event, then renders by the combined
error+event count.  `numEvents` is the per-category display cap (default 5 at
every call site). -/
def eventNodeSelector (key : NodeKey) (events0 : List QuickTraceEvent)
    (currentEvent : Option CurrentEvent) (extrasTarget : Option Target)
    (numEvents : Nat) : Node :=
  let errors := hoistErrors events0 currentEvent
  let events := excludeCurrent events0 currentEvent
  let style := nodeStyle key errors currentEvent
  if events.length + errors.length = 0 then
    Node.labelOnly style
  else if events.length + errors.length = 1 then
    match errors, events with
    | err :: _, _ =>
      Node.singleLink style (Target.singleError err) HoverText.fixedErrorText
    | [], ev :: _ =>
      Node.singleLink style (Target.singleTransaction ev) (HoverText.singleEventSummary ev)
    | [], [] => Node.labelOnly style
  else
    let hover := dropdownHover key errors events
    Node.dropdown style hover
      ((errors.take numEvents).map mkErrorItem ++
        (events.take numEvents).map mkEventItem ++
        extraPart extrasTarget hover events.length numEvents)

/-- The parsed trace structure returned by `parseQuickTrace` (external
collaborator): optional root and parent, lists of ancestors, children and
descendants, and the current event's bucket entry. -/
structure ParsedQuickTrace where
  root : Option QuickTraceEvent
  ancestors : List QuickTraceEvent
  parent : Option QuickTraceEvent
  current : QuickTraceEvent
  children : List QuickTraceEvent
  descendants : List QuickTraceEvent
  deriving DecidableEq, Repr

/-- One element of the assembled sequence: a bucket node, a `TraceConnector`,
or the rendered missing-service placeholder. -/
inductive TraceElem where
  | node (key : NodeKey) (n : Node)
  | connector
  | missingServiceNode
  deriving DecidableEq, Repr

/-- The trace assembler, the body of `QuickTrace` after a successful parse
(source lines 80-206): root, ancestors, parent (each with a trailing connector
when present/non-empty), the current node (always), the missing-service
placeholder (when flagged and not dismissed; its own render emits the
connector), then children and descendants (each with a leading connector when
non-empty).  `hideMissing` is the placeholder component's persisted-dismissal
state. -/
def assembleTrace (pt : ParsedQuickTrace) (event : CurrentEvent) (hideMissing : Bool) :
    List TraceElem :=
  (match pt.root with
   | some r =>
     [TraceElem.node NodeKey.root (eventNodeSelector NodeKey.root [r] none none 5),
      TraceElem.connector]
   | none => []) ++
  (if pt.ancestors.length != 0 then
    [TraceElem.node NodeKey.ancestors
       (eventNodeSelector NodeKey.ancestors pt.ancestors none
         (some (Target.multiTransactions "Ancestor")) 5),
     TraceElem.connector]
   else []) ++
  (match pt.parent with
   | some p =>
     [TraceElem.node NodeKey.parent (eventNodeSelector NodeKey.parent [p] none none 5),
      TraceElem.connector]
   | none => []) ++
  [TraceElem.node NodeKey.current
     (eventNodeSelector NodeKey.current [pt.current] (some event) none 5)] ++
  (if pt.current.missing_service_child then
    (if hideMissing then [] else [TraceElem.connector, TraceElem.missingServiceNode])
   else []) ++
  (if pt.children.length != 0 then
    [TraceElem.connector,
     TraceElem.node NodeKey.children
       (eventNodeSelector NodeKey.children pt.children none
         (some (Target.multiTransactions "Children")) 5)]
   else []) ++
  (if pt.descendants.length != 0 then
    [TraceElem.connector,
     TraceElem.node NodeKey.descendants
       (eventNodeSelector NodeKey.descendants pt.descendants none
         (some (Target.multiTransactions "Descendant")) 5)]
   else [])

/-- The whole render of `QuickTrace`: either the em-dash placeholder or the
container with the assembled sequence. -/
inductive QuickTraceRender where
  | placeholder
  | container (elems : List TraceElem)
  deriving DecidableEq, Repr

/-- `QuickTrace` (source lines 64-207): `parseQuickTrace` runs inside a
try/catch; on failure the component returns only the em-dash placeholder
(source lines 73-78), on success it returns the assembled container. -/
def quickTrace (parsed : Except Unit ParsedQuickTrace) (event : CurrentEvent)
    (hideMissing : Bool) : QuickTraceRender :=
  match parsed with
  | Except.error _ => QuickTraceRender.placeholder
  | Except.ok pt => QuickTraceRender.container (assembleTrace pt event hideMissing)

/-- The single persisted-flag key (source line 461). -/
def HIDE_MISSING_SERVICE_KEY : String := "quick-trace:hide-missing-services"

/-- `readMissingServiceState` (source lines 463-466): the stored value under
the key, `none` when absent; hidden exactly when it is `"1"`. -/
def readMissingServiceState (stored : Option String) : Bool :=
  stored == some "1"

/-- The placeholder's two states. -/
inductive MSState where
  | hidden
  | visible
  deriving DecidableEq, Repr

/-- A world of the placeholder machine: the component's in-memory state
(`hideMissing` as a two-state tag) and the persisted value under the key. -/
structure MSWorld where
  state : MSState
  stored : Option String
  deriving DecidableEq, Repr

/-- The initial in-memory state derived from the persisted flag at
construction time (source lines 472-474). -/
def initialMSState (stored : Option String) : MSState :=
  if readMissingServiceState stored then MSState.hidden else MSState.visible

/-- Constructing the component over a given persisted value. -/
def constructMS (stored : Option String) : MSWorld :=
  { state := initialMSState stored, stored := stored }

/-- `dismissMissingService` (source lines 476-485): writes `"1"` persistently
and sets the in-memory state to hidden. -/
def dismissMissingService (_w : MSWorld) : MSWorld :=
  { state := MSState.hidden, stored := some "1" }

/-- Component re-construction: the in-memory state is re-derived from the
persisted value, which survives. -/
def reconstructMS (w : MSWorld) : MSWorld :=
  constructMS w.stored

/-- The transitions available within one persisted-flag scope: the user
dismisses the placeholder, or the component is re-created. -/
inductive MSStep : MSWorld → MSWorld → Prop
  | dismiss (w : MSWorld) : MSStep w (dismissMissingService w)
  | recreate (w : MSWorld) : MSStep w (reconstructMS w)

/-- Whether the placeholder renders its content (source lines 487-512): the
hidden state renders nothing. -/
def msRendered (w : MSWorld) : Bool :=
  match w.state with
  | MSState.hidden => false
  | MSState.visible => true

/-- Is a dropdown entry the aggregate overflow item? -/
def isExtraItem : DropItem → Bool
  | DropItem.extraItem _ _ => true
  | _ => false

/-- Is a dropdown entry an error item? -/
def isErrorItem : DropItem → Bool
  | DropItem.errorItem _ _ _ => true
  | _ => false

/-- Is a dropdown entry a plain event item? -/
def isEventItem : DropItem → Bool
  | DropItem.eventItem _ _ _ => true
  | _ => false

/-- Number of overflow items a node displays. -/
def nodeExtraCount : Node → Nat
  | Node.dropdown _ _ items => (items.filter isExtraItem).length
  | _ => 0

/-- Number of error items a node's dropdown displays. -/
def nodeErrorItemCount : Node → Nat
  | Node.dropdown _ _ items => (items.filter isErrorItem).length
  | _ => 0

/-- Number of plain event items a node's dropdown displays. -/
def nodeEventItemCount : Node → Nat
  | Node.dropdown _ _ items => (items.filter isEventItem).length
  | _ => 0

/-- The event identifier a dropdown entry displays, if any. -/
def itemEventId : DropItem → Option String
  | DropItem.errorItem err _ _ => some err.event_id
  | DropItem.eventItem ev _ _ => some ev.event_id
  | DropItem.extraItem _ _ => none

/-- All event identifiers a rendered node displays (link targets of a single
link; error and event items of a dropdown). -/
def nodeItemIds : Node → List String
  | Node.labelOnly _ => []
  | Node.singleLink _ target _ =>
    match target with
    | Target.singleError err => [err.event_id]
    | Target.singleTransaction ev => [ev.event_id]
    | Target.multiTransactions _ => []
  | Node.dropdown _ _ items => items.filterMap itemEventId

/-! ## Concrete sample inputs -/

/-- A plain sample event carrying no errors. -/
def sampleEvent (i : String) : QuickTraceEvent :=
  { event_id := i, transaction := "txn", duration := 100, errors := [],
    missing_service_child := false }

/-- A bucket of seven plain events. -/
def sevenEvents : List QuickTraceEvent :=
  [sampleEvent "e1", sampleEvent "e2", sampleEvent "e3", sampleEvent "e4",
   sampleEvent "e5", sampleEvent "e6", sampleEvent "e7"]

/-- A sample error record. -/
def sampleError (i : String) : TraceError :=
  { event_id := i, transaction := none }

/-- A bucket with three errors (attached to its first event) and two events. -/
def mixedBucket : List QuickTraceEvent :=
  [{ event_id := "t1", transaction := "txa", duration := 50,
     errors := [sampleError "x1", sampleError "x2", sampleError "x3"],
     missing_service_child := false },
   { event_id := "t2", transaction := "txb", duration := 2000, errors := [],
     missing_service_child := false }]

/-- A sample current event of type transaction. -/
def sampleCurrent : CurrentEvent := { id := "c", type := "transaction" }

/-- A bucket entry that is a copy of the current event and carries one error. -/
def currentWithError : QuickTraceEvent :=
  { event_id := "c", transaction := "txc", duration := 10,
    errors := [sampleError "x1"], missing_service_child := false }

/-- A parsed trace with root, parent and one child present, ancestors and
descendants empty, and no missing-service flag. -/
def samplePT : ParsedQuickTrace :=
  { root := some (sampleEvent "r"), ancestors := [], parent := some (sampleEvent "p"),
    current := sampleEvent "c", children := [sampleEvent "k1"], descendants := [] }

/-! ## Helper lemmas -/

/-- Every hoisted error's identifier differs from the current event's. -/
theorem hoistErrors_event_id_ne {events : List QuickTraceEvent} {c : CurrentEvent}
    {err : TraceError} (h : err ∈ hoistErrors events (some c)) :
    err.event_id ≠ c.id := by
  simp only [hoistErrors, List.mem_flatMap, List.mem_map, List.mem_filter] at h
  obtain ⟨e, _he, a, ⟨_ha, hne⟩, rfl⟩ := h
  simpa [eq_comm] using (bne_iff_ne.mp hne)

/-- Every surviving event's identifier differs from the current event's. -/
theorem excludeCurrent_event_id_ne {events : List QuickTraceEvent} {c : CurrentEvent}
    {e : QuickTraceEvent} (h : e ∈ excludeCurrent events (some c)) :
    e.event_id ≠ c.id := by
  simp only [excludeCurrent, List.mem_filter] at h
  exact bne_iff_ne.mp h.2

/-- Reducer, empty branch: with combined count zero it yields the label-only
node. -/
theorem eventNodeSelector_empty (key : NodeKey) (events0 : List QuickTraceEvent)
    (curr : Option CurrentEvent) (extras : Option Target) (cap : Nat)
    (h : (excludeCurrent events0 curr).length + (hoistErrors events0 curr).length = 0) :
    eventNodeSelector key events0 curr extras cap =
      Node.labelOnly (nodeStyle key (hoistErrors events0 curr) curr) := by
  unfold eventNodeSelector
  rw [if_pos h]

/-- Reducer, single-item branch, error case. -/
theorem eventNodeSelector_single_error (key : NodeKey) (events0 : List QuickTraceEvent)
    (curr : Option CurrentEvent) (extras : Option Target) (cap : Nat)
    (err : TraceError) (tl : List TraceError)
    (h : (excludeCurrent events0 curr).length + (hoistErrors events0 curr).length = 1)
    (he : hoistErrors events0 curr = err :: tl) :
    eventNodeSelector key events0 curr extras cap =
      Node.singleLink (nodeStyle key (hoistErrors events0 curr) curr)
        (Target.singleError err) HoverText.fixedErrorText := by
  unfold eventNodeSelector
  rw [if_neg (by omega), if_pos h, he]

/-- Reducer, single-item branch, transaction case. -/
theorem eventNodeSelector_single_event (key : NodeKey) (events0 : List QuickTraceEvent)
    (curr : Option CurrentEvent) (extras : Option Target) (cap : Nat)
    (ev : QuickTraceEvent) (tl : List QuickTraceEvent)
    (h : (excludeCurrent events0 curr).length + (hoistErrors events0 curr).length = 1)
    (he : hoistErrors events0 curr = [])
    (hv : excludeCurrent events0 curr = ev :: tl) :
    eventNodeSelector key events0 curr extras cap =
      Node.singleLink (nodeStyle key (hoistErrors events0 curr) curr)
        (Target.singleTransaction ev) (HoverText.singleEventSummary ev) := by
  unfold eventNodeSelector
  rw [if_neg (by omega), if_pos h, he, hv]

/-- Reducer, dropdown branch: with combined count above one it yields the
dropdown with errors first (capped), then events (capped), then the overflow
part. -/
theorem eventNodeSelector_dropdown (key : NodeKey) (events0 : List QuickTraceEvent)
    (curr : Option CurrentEvent) (extras : Option Target) (cap : Nat)
    (h : 1 < (excludeCurrent events0 curr).length + (hoistErrors events0 curr).length) :
    eventNodeSelector key events0 curr extras cap =
      Node.dropdown (nodeStyle key (hoistErrors events0 curr) curr)
        (dropdownHover key (hoistErrors events0 curr) (excludeCurrent events0 curr))
        (((hoistErrors events0 curr).take cap).map mkErrorItem ++
          ((excludeCurrent events0 curr).take cap).map mkEventItem ++
          extraPart extras
            (dropdownHover key (hoistErrors events0 curr) (excludeCurrent events0 curr))
            (excludeCurrent events0 curr).length cap) := by
  unfold eventNodeSelector
  rw [if_neg (by omega), if_neg (by omega)]

/-- Mapped error and event items are never the overflow item, so the overflow
count of the dropdown's item list is the length of its overflow part. -/
theorem extraCount_of_mapped (errs : List TraceError) (evs : List QuickTraceEvent)
    (extras : Option Target) (hover : HoverText) (l c : Nat) :
    ((errs.map mkErrorItem ++ evs.map mkEventItem ++ extraPart extras hover l c).filter
        isExtraItem).length = (extraPart extras hover l c).length := by
  have h1 : (errs.map mkErrorItem).filter isExtraItem = [] := by
    simp [List.filter_map, mkErrorItem, isExtraItem, Function.comp]
  have h2 : (evs.map mkEventItem).filter isExtraItem = [] := by
    simp [List.filter_map, mkEventItem, isExtraItem, Function.comp]
  have h3 : (extraPart extras hover l c).filter isExtraItem = extraPart extras hover l c := by
    unfold extraPart
    rcases extras with _ | t <;> split <;> simp [isExtraItem]
  rw [List.filter_append, List.filter_append, h1, h2, h3]
  simp

/-- The overflow part has one item exactly when the event count exceeds the
cap and an extras target was supplied, and is empty otherwise. -/
theorem extraPart_length (extras : Option Target) (hover : HoverText) (l c : Nat) :
    (extraPart extras hover l c).length = if c < l ∧ extras.isSome then 1 else 0 := by
  unfold extraPart
  rcases extras with _ | t <;> split <;> rename_i h <;> simp [h]

/-- Without an extras target the reducer's output never contains an overflow
item, whatever the branch taken. -/
theorem nodeExtraCount_extras_none (key : NodeKey) (events0 : List QuickTraceEvent)
    (curr : Option CurrentEvent) (cap : Nat) :
    nodeExtraCount (eventNodeSelector key events0 curr none cap) = 0 := by
  rcases Nat.lt_trichotomy
      ((excludeCurrent events0 curr).length + (hoistErrors events0 curr).length) 1 with h | h | h
  · rw [eventNodeSelector_empty key events0 curr none cap (by omega)]
    rfl
  · rcases he : hoistErrors events0 curr with _ | ⟨err, tl⟩
    · rcases hv : excludeCurrent events0 curr with _ | ⟨ev, tl'⟩
      · rw [hv, he] at h
        simp at h
      · rw [eventNodeSelector_single_event key events0 curr none cap ev tl' h he hv]
        rfl
    · rw [eventNodeSelector_single_error key events0 curr none cap err tl h he]
      rfl
  · rw [eventNodeSelector_dropdown key events0 curr none cap h]
    simp only [nodeExtraCount]
    rw [extraCount_of_mapped, extraPart_length]
    simp

/-- The overflow part contributes no event identifiers. -/
theorem filterMap_extraPart (extras : Option Target) (hover : HoverText) (l c : Nat) :
    (extraPart extras hover l c).filterMap itemEventId = [] := by
  unfold extraPart
  rcases extras with _ | t <;> split <;> simp [itemEventId]

/-- Every identifier a rendered node displays comes from a hoisted error or a
surviving event of the bucket. -/
theorem nodeItemIds_mem (key : NodeKey) (events0 : List QuickTraceEvent)
    (curr : Option CurrentEvent) (extras : Option Target) (cap : Nat) {x : String}
    (hx : x ∈ nodeItemIds (eventNodeSelector key events0 curr extras cap)) :
    (∃ err ∈ hoistErrors events0 curr, x = err.event_id) ∨
    (∃ ev ∈ excludeCurrent events0 curr, x = ev.event_id) := by
  rcases Nat.lt_trichotomy
      ((excludeCurrent events0 curr).length + (hoistErrors events0 curr).length) 1 with h | h | h
  · rw [eventNodeSelector_empty key events0 curr extras cap (by omega)] at hx
    simp [nodeItemIds] at hx
  · rcases he : hoistErrors events0 curr with _ | ⟨err, tl⟩
    · rcases hv : excludeCurrent events0 curr with _ | ⟨ev, tl'⟩
      · rw [hv, he] at h
        simp at h
      · rw [eventNodeSelector_single_event key events0 curr extras cap ev tl' h he hv] at hx
        simp only [nodeItemIds, List.mem_singleton] at hx
        exact Or.inr ⟨ev, by simp [hv], hx⟩
    · rw [eventNodeSelector_single_error key events0 curr extras cap err tl h he] at hx
      simp only [nodeItemIds, List.mem_singleton] at hx
      exact Or.inl ⟨err, by simp [he], hx⟩
  · rw [eventNodeSelector_dropdown key events0 curr extras cap h] at hx
    simp only [nodeItemIds, List.filterMap_append, filterMap_extraPart, List.append_nil,
      List.mem_append, List.mem_filterMap, List.mem_map] at hx
    rcases hx with ⟨a, ⟨err, herr, rfl⟩, ha⟩ | ⟨a, ⟨ev, hev, rfl⟩, ha⟩
    · simp only [mkErrorItem, itemEventId, Option.some.injEq] at ha
      exact Or.inl ⟨err, List.mem_of_mem_take herr, ha.symm⟩
    · simp only [mkEventItem, itemEventId, Option.some.injEq] at ha
      exact Or.inr ⟨ev, List.mem_of_mem_take hev, ha.symm⟩

/-- Any bucket node occurring in the assembled sequence is one of the six
bucket renderings, with the bucket present/non-empty when optional; root,
parent and current are always rendered without an extras target. -/
theorem node_mem_assembleTrace {pt : ParsedQuickTrace} {event : CurrentEvent} {hide : Bool}
    {key : NodeKey} {n : Node} (h : TraceElem.node key n ∈ assembleTrace pt event hide) :
    (∃ r, pt.root = some r ∧ key = NodeKey.root ∧
        n = eventNodeSelector NodeKey.root [r] none none 5) ∨
    (pt.ancestors ≠ [] ∧ key = NodeKey.ancestors ∧
        n = eventNodeSelector NodeKey.ancestors pt.ancestors none
          (some (Target.multiTransactions "Ancestor")) 5) ∨
    (∃ p, pt.parent = some p ∧ key = NodeKey.parent ∧
        n = eventNodeSelector NodeKey.parent [p] none none 5) ∨
    (key = NodeKey.current ∧
        n = eventNodeSelector NodeKey.current [pt.current] (some event) none 5) ∨
    (pt.children ≠ [] ∧ key = NodeKey.children ∧
        n = eventNodeSelector NodeKey.children pt.children none
          (some (Target.multiTransactions "Children")) 5) ∨
    (pt.descendants ≠ [] ∧ key = NodeKey.descendants ∧
        n = eventNodeSelector NodeKey.descendants pt.descendants none
          (some (Target.multiTransactions "Descendant")) 5) := by
  unfold assembleTrace at h
  rcases hr : pt.root with _ | r <;> rcases hp : pt.parent with _ | p <;>
    rw [hr, hp] at h <;>
    repeat' split at h <;>
    simp_all [List.mem_append, bne_iff_ne, List.length_eq_zero]

/-- With the dismissal flag set, the assembled sequence never contains the
missing-service placeholder. -/
theorem missingServiceNode_not_mem_hidden (pt : ParsedQuickTrace) (event : CurrentEvent) :
    TraceElem.missingServiceNode ∉ assembleTrace pt event true := by
  intro h
  unfold assembleTrace at h
  rcases hr : pt.root with _ | r <;> rcases hp : pt.parent with _ | p <;>
    rw [hr, hp] at h <;>
    repeat' split at h <;>
    simp_all [List.mem_append]

/-- The concrete layout with root, parent and children present, ancestors and
descendants empty, and no missing-service placeholder. -/
theorem assembleTrace_concrete (pt : ParsedQuickTrace) (event : CurrentEvent) (hide : Bool)
    (r p : QuickTraceEvent) (hr : pt.root = some r) (ha : pt.ancestors = [])
    (hp : pt.parent = some p) (hc : pt.children ≠ []) (hd : pt.descendants = [])
    (hm : pt.current.missing_service_child = false) :
    assembleTrace pt event hide =
      [TraceElem.node NodeKey.root (eventNodeSelector NodeKey.root [r] none none 5),
       TraceElem.connector,
       TraceElem.node NodeKey.parent (eventNodeSelector NodeKey.parent [p] none none 5),
       TraceElem.connector,
       TraceElem.node NodeKey.current
         (eventNodeSelector NodeKey.current [pt.current] (some event) none 5),
       TraceElem.connector,
       TraceElem.node NodeKey.children
         (eventNodeSelector NodeKey.children pt.children none
           (some (Target.multiTransactions "Children")) 5)] := by
  unfold assembleTrace
  simp [hr, hp, ha, hd, hm, bne_iff_ne, List.length_eq_zero, hc]

/-- The current bucket's node is always part of the assembled sequence. -/
theorem current_node_mem_assembleTrace (pt : ParsedQuickTrace) (event : CurrentEvent)
    (hide : Bool) :
    TraceElem.node NodeKey.current
        (eventNodeSelector NodeKey.current [pt.current] (some event) none 5) ∈
      assembleTrace pt event hide := by
  unfold assembleTrace
  simp [List.mem_append]

/-! ## Claims -/

/-- Claim C1, counterexample: a bucket of 7 events, cap 5, no errors, rendered
without an extras target (as the root, parent and current buckets are),
produces a dropdown with exactly the 5 capped event items and zero overflow
items — not the one overflow item the claim requires for every such bucket. -/
theorem claim1_counterexample :
    eventNodeSelector NodeKey.children sevenEvents none none 5 =
      Node.dropdown TagType.white (HoverText.viewPrefixType "child" "transactions")
        ((sevenEvents.take 5).map mkEventItem) ∧
    nodeExtraCount (eventNodeSelector NodeKey.children sevenEvents none none 5) = 0 ∧
    ¬ nodeExtraCount (eventNodeSelector NodeKey.children sevenEvents none none 5) = 1 :=
  ⟨rfl, rfl, by decide⟩

/-- Claim C1 (amended): for every bucket whose combined error+event count
exceeds 1, whenever the number of plain events (after self-exclusion) exceeds
the cap and an extras target was supplied, the resulting dropdown lists the
capped errors first, then exactly cap events, followed by exactly one
aggregate overflow item. -/
theorem claim1_overflow_needs_extras_target (key : NodeKey) (events0 : List QuickTraceEvent)
    (curr : Option CurrentEvent) (tgt : Target) (cap : Nat)
    (h1 : 1 < (excludeCurrent events0 curr).length + (hoistErrors events0 curr).length)
    (h2 : cap < (excludeCurrent events0 curr).length) :
    ∃ style hover,
      eventNodeSelector key events0 curr (some tgt) cap =
        Node.dropdown style hover
          (((hoistErrors events0 curr).take cap).map mkErrorItem ++
            ((excludeCurrent events0 curr).take cap).map mkEventItem ++
            [DropItem.extraItem tgt hover]) ∧
      (((excludeCurrent events0 curr).take cap).map mkEventItem).length = cap := by
  refine ⟨nodeStyle key (hoistErrors events0 curr) curr,
    dropdownHover key (hoistErrors events0 curr) (excludeCurrent events0 curr), ?_, ?_⟩
  · rw [eventNodeSelector_dropdown key events0 curr (some tgt) cap h1]
    unfold extraPart
    rw [if_pos h2]
  · simp only [List.length_map, List.length_take]
    omega

/-- Witness for claim C1: the seven-event bucket with an extras target and cap
5 shows exactly 5 events and the single overflow item. -/
theorem claim1_witness :
    ∃ style hover,
      eventNodeSelector NodeKey.children sevenEvents none
          (some (Target.multiTransactions "Children")) 5 =
        Node.dropdown style hover
          (((hoistErrors sevenEvents none).take 5).map mkErrorItem ++
            ((excludeCurrent sevenEvents none).take 5).map mkEventItem ++
            [DropItem.extraItem (Target.multiTransactions "Children") hover]) ∧
      (((excludeCurrent sevenEvents none).take 5).map mkEventItem).length = 5 :=
  claim1_overflow_needs_extras_target NodeKey.children sevenEvents none
    (Target.multiTransactions "Children") 5 (by decide) (by decide)

/-- Claim C2: for every bucket and every current event, the current event's
identifier never appears among the rendered items: events equal to the current
event are removed, and hoisted errors with the current event's identifier are
excluded. -/
theorem claim2_self_exclusion (key : NodeKey) (events0 : List QuickTraceEvent)
    (c : CurrentEvent) (extras : Option Target) (cap : Nat) :
    c.id ∉ nodeItemIds (eventNodeSelector key events0 (some c) extras cap) := by
  intro hx
  rcases nodeItemIds_mem key events0 (some c) extras cap hx with ⟨err, hm, he⟩ | ⟨ev, hm, he⟩
  · exact hoistErrors_event_id_ne hm he.symm
  · exact excludeCurrent_event_id_ne hm he.symm

/-- Claim C4: for every bucket whose combined error+event count exceeds 1, the
reducer returns a dropdown in which all error items precede all plain-event
items, each category is truncated to at most cap items, and within each
category the input order is preserved (the item lists are order-preserving
maps of prefixes of the hoisted errors and surviving events); in particular,
with 3 errors, 2 events and cap 5, the dropdown lists all 3 errors then both
events and no overflow item. -/
theorem claim4_errors_precede_events :
    (∀ (key : NodeKey) (events0 : List QuickTraceEvent) (curr : Option CurrentEvent)
        (extras : Option Target) (cap : Nat),
      1 < (excludeCurrent events0 curr).length + (hoistErrors events0 curr).length →
      ∃ style hover,
        eventNodeSelector key events0 curr extras cap =
          Node.dropdown style hover
            (((hoistErrors events0 curr).take cap).map mkErrorItem ++
              ((excludeCurrent events0 curr).take cap).map mkEventItem ++
              extraPart extras hover (excludeCurrent events0 curr).length cap)) ∧
    (eventNodeSelector NodeKey.children mixedBucket none none 5 =
      Node.dropdown TagType.warning (HoverText.viewPrefixType "child" "events")
        ((hoistErrors mixedBucket none).map mkErrorItem ++
          (excludeCurrent mixedBucket none).map mkEventItem) ∧
      nodeErrorItemCount (eventNodeSelector NodeKey.children mixedBucket none none 5) = 3 ∧
      nodeEventItemCount (eventNodeSelector NodeKey.children mixedBucket none none 5) = 2 ∧
      nodeExtraCount (eventNodeSelector NodeKey.children mixedBucket none none 5) = 0) := by
  constructor
  · intro key events0 curr extras cap h
    exact ⟨_, _, eventNodeSelector_dropdown key events0 curr extras cap h⟩
  · exact ⟨rfl, rfl, rfl, rfl⟩

/-- Witness for claim C4: the 3-error/2-event bucket at cap 5. -/
theorem claim4_witness :
    ∃ style hover,
      eventNodeSelector NodeKey.children mixedBucket none none 5 =
        Node.dropdown style hover
          (((hoistErrors mixedBucket none).take 5).map mkErrorItem ++
            ((excludeCurrent mixedBucket none).take 5).map mkEventItem ++
            extraPart none hover (excludeCurrent mixedBucket none).length 5) :=
  claim4_errors_precede_events.1 NodeKey.children mixedBucket none none 5 (by decide)

/-- Claim C7: for every bucket whose combined error+event count (after error
hoisting and self-exclusion) is zero, the reducer returns a label-only node —
never a single link or dropdown — whose style is of the current-styled family
(black/error) exactly when the bucket is the current-event slot. -/
theorem claim7_empty_bucket_label_only (key : NodeKey) (events0 : List QuickTraceEvent)
    (curr : Option CurrentEvent) (extras : Option Target) (cap : Nat)
    (h : (excludeCurrent events0 curr).length + (hoistErrors events0 curr).length = 0) :
    ∃ style, eventNodeSelector key events0 curr extras cap = Node.labelOnly style ∧
      (key = NodeKey.current ↔ style = TagType.black ∨ style = TagType.error) := by
  refine ⟨nodeStyle key (hoistErrors events0 curr) curr,
    eventNodeSelector_empty key events0 curr extras cap h, ?_⟩
  unfold nodeStyle
  split <;> split <;> simp_all

/-- Witness for claim C7: the current bucket holding only the current event
itself reduces to zero items and renders label-only. -/
theorem claim7_witness :
    ∃ style,
      eventNodeSelector NodeKey.current [sampleEvent "c"] (some sampleCurrent) none 5 =
        Node.labelOnly style ∧
      (NodeKey.current = NodeKey.current ↔ style = TagType.black ∨ style = TagType.error) :=
  claim7_empty_bucket_label_only NodeKey.current [sampleEvent "c"] (some sampleCurrent) none 5
    (by decide)

/-- Claim C8: for every bucket whose combined error+event count is exactly 1,
the reducer returns a single link whose target is the single-error resolver's
output (with the fixed hover string) when the one item is an error, and the
single-transaction resolver's output (with the one event's summary hover) when
it is a plain event. -/
theorem claim8_single_link (key : NodeKey) (events0 : List QuickTraceEvent)
    (curr : Option CurrentEvent) (extras : Option Target) (cap : Nat)
    (h : (excludeCurrent events0 curr).length + (hoistErrors events0 curr).length = 1) :
    (∀ err tl, hoistErrors events0 curr = err :: tl →
      eventNodeSelector key events0 curr extras cap =
        Node.singleLink (nodeStyle key (hoistErrors events0 curr) curr)
          (Target.singleError err) HoverText.fixedErrorText) ∧
    (∀ ev tl, hoistErrors events0 curr = [] → excludeCurrent events0 curr = ev :: tl →
      eventNodeSelector key events0 curr extras cap =
        Node.singleLink (nodeStyle key (hoistErrors events0 curr) curr)
          (Target.singleTransaction ev) (HoverText.singleEventSummary ev)) :=
  ⟨fun err tl he => eventNodeSelector_single_error key events0 curr extras cap err tl h he,
   fun ev tl he hv => eventNodeSelector_single_event key events0 curr extras cap ev tl h he hv⟩

/-- Witness for claim C8: a current bucket whose single surviving item is one
hoisted error yields the single-error link with the fixed hover text. -/
theorem claim8_witness :
    eventNodeSelector NodeKey.current [currentWithError] (some sampleCurrent) none 5 =
      Node.singleLink
        (nodeStyle NodeKey.current (hoistErrors [currentWithError] (some sampleCurrent))
          (some sampleCurrent))
        (Target.singleError { sampleError "x1" with transaction := some "txc" })
        HoverText.fixedErrorText :=
  (claim8_single_link NodeKey.current [currentWithError] (some sampleCurrent) none 5
      (by decide)).1
    { sampleError "x1" with transaction := some "txc" } [] (by decide)

/-- Claim C10: error hoisting runs before self-exclusion: a bucket entry equal
to the current event is removed from the event list, yet each of its attached
errors whose identifier differs from the current event's identifier still
appears among the hoisted errors. -/
theorem claim10_hoist_before_exclusion (events0 : List QuickTraceEvent) (c : CurrentEvent)
    (e : QuickTraceEvent) (he : e ∈ events0) (hid : e.event_id = c.id) :
    e ∉ excludeCurrent events0 (some c) ∧
    ∀ err ∈ e.errors, err.event_id ≠ c.id →
      ({ err with transaction := some e.transaction } : TraceError) ∈
        hoistErrors events0 (some c) := by
  constructor
  · intro hmem
    exact excludeCurrent_event_id_ne hmem hid
  · intro err hmemerr hne
    simp only [hoistErrors, List.mem_flatMap]
    refine ⟨e, he, ?_⟩
    simp only [List.mem_map]
    exact ⟨err, List.mem_filter.mpr ⟨hmemerr, bne_iff_ne.mpr (Ne.symm hne)⟩, rfl⟩

/-- Witness for claim C10: the copy of the current event is excluded while its
attached error is still hoisted and displayed. -/
theorem claim10_witness :
    currentWithError ∉ excludeCurrent [currentWithError] (some sampleCurrent) ∧
    ({ sampleError "x1" with transaction := some "txc" } : TraceError) ∈
      hoistErrors [currentWithError] (some sampleCurrent) := by
  have h := claim10_hoist_before_exclusion [currentWithError] sampleCurrent currentWithError
    (List.mem_singleton.mpr rfl) rfl
  exact ⟨h.1, h.2 (sampleError "x1") (by decide) (by decide)⟩

/-- Claim C3: the assembler emits nodes in the fixed order root, ancestors,
parent, current, missing-service placeholder, children, descendants; the
current slot is always rendered; each optional bucket is omitted entirely
(node and connector) when absent/empty; and the concrete configuration with
empty ancestors and descendants but non-empty root, parent and children yields
exactly root-node, connector, parent-node, connector, current-node, connector,
children-node. -/
theorem claim3_assemble_order :
    (∀ pt event hide, TraceElem.node NodeKey.current
        (eventNodeSelector NodeKey.current [pt.current] (some event) none 5) ∈
      assembleTrace pt event hide) ∧
    (∀ pt event hide, pt.root = none →
      ∀ n, TraceElem.node NodeKey.root n ∉ assembleTrace pt event hide) ∧
    (∀ pt event hide, pt.ancestors = [] →
      ∀ n, TraceElem.node NodeKey.ancestors n ∉ assembleTrace pt event hide) ∧
    (∀ pt event hide, pt.parent = none →
      ∀ n, TraceElem.node NodeKey.parent n ∉ assembleTrace pt event hide) ∧
    (∀ pt event hide, pt.children = [] →
      ∀ n, TraceElem.node NodeKey.children n ∉ assembleTrace pt event hide) ∧
    (∀ pt event hide, pt.descendants = [] →
      ∀ n, TraceElem.node NodeKey.descendants n ∉ assembleTrace pt event hide) ∧
    (∀ pt event hide r p, pt.root = some r → pt.ancestors = [] → pt.parent = some p →
      pt.children ≠ [] → pt.descendants = [] → pt.current.missing_service_child = false →
      assembleTrace pt event hide =
        [TraceElem.node NodeKey.root (eventNodeSelector NodeKey.root [r] none none 5),
         TraceElem.connector,
         TraceElem.node NodeKey.parent (eventNodeSelector NodeKey.parent [p] none none 5),
         TraceElem.connector,
         TraceElem.node NodeKey.current
           (eventNodeSelector NodeKey.current [pt.current] (some event) none 5),
         TraceElem.connector,
         TraceElem.node NodeKey.children
           (eventNodeSelector NodeKey.children pt.children none
             (some (Target.multiTransactions "Children")) 5)]) := by
  refine ⟨current_node_mem_assembleTrace, ?_, ?_, ?_, ?_, ?_,
    fun pt event hide r p hr ha hp hc hd hm =>
      assembleTrace_concrete pt event hide r p hr ha hp hc hd hm⟩ <;>
  · intro pt event hide h0 n hmem
    rcases node_mem_assembleTrace hmem with
      ⟨r, hr, hk, _⟩ | ⟨hne, hk, _⟩ | ⟨p, hp, hk, _⟩ | ⟨hk, _⟩ | ⟨hne, hk, _⟩ | ⟨hne, hk, _⟩ <;>
      simp_all

/-- Witness for claim C3: the sample parsed trace produces exactly the
seven-element sequence. -/
theorem claim3_witness :
    assembleTrace samplePT sampleCurrent false =
      [TraceElem.node NodeKey.root (eventNodeSelector NodeKey.root [sampleEvent "r"] none none 5),
       TraceElem.connector,
       TraceElem.node NodeKey.parent
         (eventNodeSelector NodeKey.parent [sampleEvent "p"] none none 5),
       TraceElem.connector,
       TraceElem.node NodeKey.current
         (eventNodeSelector NodeKey.current [samplePT.current] (some sampleCurrent) none 5),
       TraceElem.connector,
       TraceElem.node NodeKey.children
         (eventNodeSelector NodeKey.children samplePT.children none
           (some (Target.multiTransactions "Children")) 5)] :=
  claim3_assemble_order.2.2.2.2.2.2 samplePT sampleCurrent false (sampleEvent "r")
    (sampleEvent "p") rfl rfl rfl (by decide) rfl rfl

/-- Claim C5: when the upstream trace-parsing step fails, the component
returns only the em-dash placeholder and propagates nothing; when parsing
succeeds, the component always returns the assembled container (it is a total
function and cannot fail). -/
theorem claim5_parse_failure_recovery :
    (∀ (e : Unit) (event : CurrentEvent) (hide : Bool),
      quickTrace (Except.error e) event hide = QuickTraceRender.placeholder) ∧
    (∀ (pt : ParsedQuickTrace) (event : CurrentEvent) (hide : Bool),
      ∃ elems, quickTrace (Except.ok pt) event hide = QuickTraceRender.container elems) :=
  ⟨fun _ _ _ => rfl, fun pt event hide => ⟨assembleTrace pt event hide, rfl⟩⟩

/-- Claim C6: the missing-service placeholder machine has initial state hidden
exactly when the persisted value is `"1"`; dismissing writes `"1"` and moves
to hidden; steps preserve the hidden-with-flag state; along any run from a
freshly constructed component a hidden state implies the flag is `"1"`; after
one dismissal every reachable world is hidden, keeps the flag, and renders
nothing; and with the flag set the assembler output never contains the
placeholder. -/
theorem claim6_missing_service_machine :
    (∀ stored, initialMSState stored = MSState.hidden ↔ stored = some "1") ∧
    (∀ w, (dismissMissingService w).state = MSState.hidden ∧
      (dismissMissingService w).stored = some "1") ∧
    (∀ w w', MSStep w w' → w.state = MSState.hidden → w.stored = some "1" →
      w'.state = MSState.hidden) ∧
    (∀ stored w', Relation.ReflTransGen MSStep (constructMS stored) w' →
      w'.state = MSState.hidden → w'.stored = some "1") ∧
    (∀ w w', Relation.ReflTransGen MSStep (dismissMissingService w) w' →
      w'.state = MSState.hidden ∧ w'.stored = some "1" ∧ msRendered w' = false) ∧
    (∀ pt event, TraceElem.missingServiceNode ∉ assembleTrace pt event true) := by
  refine ⟨?_, fun w => ⟨rfl, rfl⟩, ?_, ?_, ?_, missingServiceNode_not_mem_hidden⟩
  · intro stored
    unfold initialMSState readMissingServiceState
    split <;> rename_i h <;> simp_all
  · intro w w' hs h1 h2
    cases hs <;>
      simp_all [dismissMissingService, reconstructMS, constructMS, initialMSState,
        readMissingServiceState]
  · intro stored w' h
    induction h with
    | refl =>
      intro hh
      simp_all [constructMS, initialMSState, readMissingServiceState]
    | tail hstep hbc ih =>
      rename_i b c
      intro hh
      cases hbc with
      | dismiss => rfl
      | recreate =>
        simp_all [reconstructMS, constructMS, initialMSState, readMissingServiceState]
  · intro w w' h
    have key : w'.state = MSState.hidden ∧ w'.stored = some "1" := by
      induction h with
      | refl => exact ⟨rfl, rfl⟩
      | tail hstep hbc ih =>
        cases hbc with
        | dismiss => exact ⟨rfl, rfl⟩
        | recreate =>
          rename_i b
          simp_all [reconstructMS, constructMS, initialMSState, readMissingServiceState]
    exact ⟨key.1, key.2, by simp [msRendered, key.1]⟩

/-- Witness for claim C6: dismissing a freshly constructed component (empty
store) yields a hidden, flag-set, non-rendered world; and the initial state
over a `"1"` store is hidden. -/
theorem claim6_witness :
    ((dismissMissingService (constructMS none)).state = MSState.hidden ∧
      (dismissMissingService (constructMS none)).stored = some "1" ∧
      msRendered (dismissMissingService (constructMS none)) = false) ∧
    (initialMSState (some "1") = MSState.hidden ↔ (some "1" : Option String) = some "1") :=
  ⟨claim6_missing_service_machine.2.2.2.2.1 (constructMS none) _ Relation.ReflTransGen.refl,
   claim6_missing_service_machine.1 (some "1")⟩

/-- Mapped error and event items keep every error item and nothing else, so
the dropdown always shows exactly the capped number of error items. -/
theorem errorCount_of_mapped (errs : List TraceError) (evs : List QuickTraceEvent)
    (extras : Option Target) (hover : HoverText) (l c : Nat) :
    ((errs.map mkErrorItem ++ evs.map mkEventItem ++ extraPart extras hover l c).filter
        isErrorItem).length = errs.length := by
  have h1 : (errs.map mkErrorItem).filter isErrorItem = errs.map mkErrorItem := by
    simp [List.filter_map, mkErrorItem, isErrorItem, Function.comp_def, List.filter_true]
  have h2 : (evs.map mkEventItem).filter isErrorItem = [] := by
    simp [List.filter_map, mkEventItem, isErrorItem, Function.comp]
  have h3 : (extraPart extras hover l c).filter isErrorItem = [] := by
    unfold extraPart
    rcases extras with _ | t <;> split <;> simp [isErrorItem]
  rw [List.filter_append, List.filter_append, h1, h2, h3]
  simp

/-- Claim C9: in the dropdown case the overflow item appears exactly when an
extras target was supplied and the post-exclusion event count exceeds the cap;
errors beyond the cap are dropped (the error-item count is the capped error
count) with no overflow item of their own; without an extras target the
reducer never emits an overflow item; and the root, parent and current nodes
of the assembled trace, which are built without an extras target, never
contain one. -/
theorem claim9_overflow_only_with_extras :
    (∀ (key : NodeKey) (events0 : List QuickTraceEvent) (curr : Option CurrentEvent)
        (extras : Option Target) (cap : Nat),
      1 < (excludeCurrent events0 curr).length + (hoistErrors events0 curr).length →
      (nodeExtraCount (eventNodeSelector key events0 curr extras cap) = 1 ↔
        cap < (excludeCurrent events0 curr).length ∧ extras.isSome) ∧
      (¬(cap < (excludeCurrent events0 curr).length ∧ extras.isSome) →
        nodeExtraCount (eventNodeSelector key events0 curr extras cap) = 0) ∧
      nodeErrorItemCount (eventNodeSelector key events0 curr extras cap) =
        min cap (hoistErrors events0 curr).length) ∧
    (∀ (key : NodeKey) (events0 : List QuickTraceEvent) (curr : Option CurrentEvent)
        (cap : Nat),
      nodeExtraCount (eventNodeSelector key events0 curr none cap) = 0) ∧
    (∀ pt event hide n, TraceElem.node NodeKey.root n ∈ assembleTrace pt event hide →
      nodeExtraCount n = 0) ∧
    (∀ pt event hide n, TraceElem.node NodeKey.parent n ∈ assembleTrace pt event hide →
      nodeExtraCount n = 0) ∧
    (∀ pt event hide n, TraceElem.node NodeKey.current n ∈ assembleTrace pt event hide →
      nodeExtraCount n = 0) := by
  refine ⟨?_, nodeExtraCount_extras_none, ?_, ?_, ?_⟩
  · intro key events0 curr extras cap h
    rw [eventNodeSelector_dropdown key events0 curr extras cap h]
    simp only [nodeExtraCount, nodeErrorItemCount]
    rw [extraCount_of_mapped, extraPart_length, errorCount_of_mapped]
    refine ⟨?_, ?_, ?_⟩
    · split <;> rename_i hc <;> simp [hc]
    · intro hn
      rw [if_neg hn]
    · simp [List.length_take]
  all_goals
    intro pt event hide n hmem
    rcases node_mem_assembleTrace hmem with
      ⟨r, hr, hk, hn⟩ | ⟨hne, hk, hn⟩ | ⟨p, hp, hk, hn⟩ | ⟨hk, hn⟩ | ⟨hne, hk, hn⟩ |
      ⟨hne, hk, hn⟩ <;>
    first
      | (rw [hn]; exact nodeExtraCount_extras_none _ _ _ _)
      | simp_all

/-- Witness for claim C9: the seven-event bucket without an extras target has
no overflow item even though seven exceeds the cap. -/
theorem claim9_witness :
    (nodeExtraCount (eventNodeSelector NodeKey.children sevenEvents none none 5) = 1 ↔
      5 < (excludeCurrent sevenEvents none).length ∧ (none : Option Target).isSome) ∧
    (¬(5 < (excludeCurrent sevenEvents none).length ∧ (none : Option Target).isSome) →
      nodeExtraCount (eventNodeSelector NodeKey.children sevenEvents none none 5) = 0) ∧
    nodeErrorItemCount (eventNodeSelector NodeKey.children sevenEvents none none 5) =
      min 5 (hoistErrors sevenEvents none).length :=
  claim9_overflow_only_with_extras.1 NodeKey.children sevenEvents none none 5 (by decide)
